import Mathlib

/-!
Verification development for the `video_streaming` backend.

We give a shallow embedding of the two backend handlers that the
specification's core claims are about:

* `backend/mediaconvert_completion_handler.py` — reconciliation of
  MediaConvert job-completion events into the video catalog
  (`handle_job_completion`, `handle_job_error`,
  `find_existing_video_by_filename`, `create_video_record`,
  `extract_filename_from_event`, `get_job_type_from_detail`,
  `extract_thumbnail_url_from_event`, `extract_duration_from_job_detail`);

* `backend/video_streamer.py` — tier resolution and playback
  authorization (`get_user_subscription`, `generate_video_response`,
  `get_available_qualities`, `generate_cloudfront_signed_url`, and the
  record-status gate of `lambda_handler`).

Python dictionaries holding the rendition URLs are embedded as ordered
association lists with dict-style insertion (`mapInsert` replaces the
value at an existing key in place, otherwise appends).  The DynamoDB
table is a list of records; `scan` with an `originalFilename` filter
returning `items[0]` is the first list element matching the filename,
and `put_item` replaces the record with the same `videoId` key (or
appends a new one).  Timestamps are opaque strings on the reconciler
side and epoch seconds (`Nat`) on the streamer side; durations are kept
in integer milliseconds (the source divides by 1000.0 into a float,
which does not affect any claim).
-/

/-- `pat` is a prefix of `s` (character lists). -/
def isPrefixList : List Char → List Char → Bool
  | [], _ => true
  | _ :: _, [] => false
  | p :: ps, c :: cs => p == c && isPrefixList ps cs

/-- `pat` occurs somewhere in `s` (character lists). -/
def containsSub : List Char → List Char → Bool
  | [], pat => pat.isEmpty
  | s@(_ :: cs), pat => isPrefixList pat s || containsSub cs pat

/-- Python's substring test `pat in s`. -/
def strContains (s pat : String) : Bool :=
  containsSub s.data pat.data

/-- Replace every (left-to-right, non-overlapping) occurrence of the
nonempty pattern `pat` by `rep`; the fuel argument is the length of the
remaining input, which strictly decreases at every step. -/
def replaceAux : Nat → List Char → List Char → List Char → List Char
  | 0, s, _, _ => s
  | Nat.succ n, s, pat, rep =>
    match s with
    | [] => []
    | c :: cs =>
      if !pat.isEmpty && isPrefixList pat s then
        rep ++ replaceAux n (cs.drop (pat.length - 1)) pat rep
      else
        c :: replaceAux n cs pat rep

/-- Python's `s.replace(pat, rep)` for a nonempty pattern. -/
def strReplace (s pat rep : String) : String :=
  String.mk (replaceAux s.data.length s.data pat.data rep.data)

/-- Characters of `s` strictly before the first occurrence of `pat`
(all of `s` when `pat` does not occur): Python's `s.split(pat)[0]`. -/
def takeUntilSub : List Char → List Char → List Char
  | [], _ => []
  | s@(c :: cs), pat => if isPrefixList pat s then [] else c :: takeUntilSub cs pat

/-- Python's `s.split(pat)[0]` for a nonempty pattern. -/
def takeUntil (s pat : String) : String :=
  String.mk (takeUntilSub s.data pat.data)

/-- Python's `path.split('/')[-1]`: the suffix after the last `/`
(the whole string when there is no `/`). -/
def lastPathComponent (s : String) : String :=
  String.mk (s.data.foldl (fun acc c => if c == '/' then [] else acc ++ [c]) [])

/-- Helper for `titleCase`: the boolean records whether the previous
character was alphabetic. -/
def titleCaseAux : List Char → Bool → List Char
  | [], _ => []
  | c :: cs, prevAlpha =>
    if c.isAlpha then
      (if prevAlpha then c.toLower else c.toUpper) :: titleCaseAux cs true
    else
      c :: titleCaseAux cs false

/-- Python's `str.title()` restricted to alphabetic characters: a letter
that follows a non-letter is uppercased, other letters are lowercased. -/
def titleCase (s : String) : String :=
  String.mk (titleCaseAux s.data false)

/-- Lookup in a Python-dict-like association list (first matching key). -/
def mapLookup (m : List (String × String)) (k : String) : Option String :=
  (m.find? (fun p => p.1 == k)).map (·.2)

/-- Python dict assignment `m[k] = v`: replace the value at an existing
key in place, otherwise append the new binding at the end. -/
def mapInsert (m : List (String × String)) (k v : String) : List (String × String) :=
  if m.any (fun p => p.1 == k) then
    m.map (fun p => if p.1 == k then (k, v) else p)
  else
    m ++ [(k, v)]

/-- One entry of `outputDetails` in a MediaConvert completion event. -/
structure OutputDetail where
  outputFilePaths : List String
  durationInMs : Option Nat := none
  deriving Repr, DecidableEq

/-- One entry of `outputGroupDetails` in a MediaConvert completion event. -/
structure OutputGroupDetail where
  outputDetails : List OutputDetail
  deriving Repr, DecidableEq

/-- The optional `jobDetails` object of a completion event. -/
structure JobDetails where
  durationInMs : Option Nat := none
  deriving Repr, DecidableEq

/-- The `detail` payload of an EventBridge MediaConvert completion event
(fields the handler reads). -/
structure EventDetail where
  outputGroupDetails : List OutputGroupDetail := []
  jobDetails : Option JobDetails := none
  errorMessage : Option String := none
  errorCode : Option String := none
  deriving Repr, DecidableEq

/-- All output file paths of the event, in the nested iteration order of
the source's `for group … for output … for file_path …` loops. -/
def eventPaths (detail : EventDetail) : List String :=
  detail.outputGroupDetails.flatMap fun g => g.outputDetails.flatMap fun o => o.outputFilePaths

/-- Per-path body of `extract_filename_from_event`'s loop: strip the
matching rendition suffix (or thumbnail suffix) from the path's basename. -/
def filenameFromPath (file_path : String) : Option String :=
  let filename_with_suffix := lastPathComponent file_path
  if strContains filename_with_suffix "_free_480p.mp4" then
    some (strReplace filename_with_suffix "_free_480p.mp4" "")
  else if strContains filename_with_suffix "_standard_480p.mp4" then
    some (strReplace filename_with_suffix "_standard_480p.mp4" "")
  else if strContains filename_with_suffix "_premium_720p.mp4" then
    some (strReplace filename_with_suffix "_premium_720p.mp4" "")
  else if strContains filename_with_suffix "_premium_1080p.mp4" then
    some (strReplace filename_with_suffix "_premium_1080p.mp4" "")
  else if strContains filename_with_suffix "_thumbnail." then
    some (takeUntil filename_with_suffix "_thumbnail.")
  else
    none

/-- `extract_filename_from_event`: first output path whose basename
matches one of the fixed suffix patterns determines the filename. -/
def extract_filename_from_event (detail : EventDetail) : Option String :=
  (eventPaths detail).findSome? filenameFromPath

/-- Per-path body of `get_job_type_from_detail`'s loop. -/
def jobTypeFromPath (file_path : String) : Option String :=
  if strContains file_path "/free/" then some "free"
  else if strContains file_path "/standard/" || strContains file_path "/premium/" then some "full"
  else none

/-- `get_job_type_from_detail`: `free` on a `/free/` path segment,
`full` on `/standard/` or `/premium/`, `unknown` otherwise. -/
def get_job_type_from_detail (detail : EventDetail) : String :=
  ((eventPaths detail).findSome? jobTypeFromPath).getD "unknown"

/-- `extract_thumbnail_url_from_event`: CloudFront URL of the first
thumbnail output path, falling back to the expected naming pattern. -/
def extract_thumbnail_url_from_event (detail : EventDetail)
    (cloudfront_domain filename : String) : String :=
  match (eventPaths detail).find?
      (fun p => strContains p "/thumbnails/" && strContains p "_thumbnail.") with
  | some file_path =>
    "https://" ++ cloudfront_domain ++ "/thumbnails/" ++ lastPathComponent file_path
  | none =>
    "https://" ++ cloudfront_domain ++ "/thumbnails/" ++ filename ++ "_thumbnail.0000000.jpg"

/-- `extract_duration_from_job_detail`, in milliseconds: first truthy
(nonzero) output-level `durationInMs`, else the job-level field if the
key is present (even when zero). -/
def extract_duration_from_job_detail (detail : EventDetail) : Option Nat :=
  let fromOutputs := (detail.outputGroupDetails.flatMap fun g => g.outputDetails).findSome?
    (fun o => match o.durationInMs with
      | some d => if d != 0 then some d else none
      | none => none)
  match fromOutputs with
  | some d => some d
  | none =>
    match detail.jobDetails with
    | some jd => jd.durationInMs
    | none => none

example : extract_filename_from_event
    { outputGroupDetails := [{ outputDetails :=
        [{ outputFilePaths := ["s3://bucket/free/myclip_free_480p.mp4"] }] }] } = some "myclip" := by
  decide

example : get_job_type_from_detail
    { outputGroupDetails := [{ outputDetails :=
        [{ outputFilePaths := ["s3://bucket/thumbnails/myclip_thumbnail.0000000.jpg"] }] }] }
      = "unknown" := by
  decide

/-- A catalog item as written by the handlers.  Attributes that some
records omit are `Option` (absent = `none`) or default to the empty
value; `duration` is kept in integer milliseconds. -/
structure VideoRecord where
  videoId : String
  originalFilename : String
  originalKey : String := ""
  inputBucket : String := ""
  mediaConvertJobId : String := ""
  status : String
  videoUrls : List (String × String) := []
  thumbnailUrl : Option String := none
  availableQualities : List String := []
  uploadDate : Option String := none
  completedDate : Option String := none
  errorDate : Option String := none
  errorMessage : Option String := none
  errorCode : Option String := none
  title : String := ""
  description : String := ""
  duration : Option Nat := none
  deriving Repr, DecidableEq

/-- `find_existing_video_by_filename`: the table scan filters on
`originalFilename = :filename` only (no status condition) and the
handler takes `items[0]`, the first match. -/
def find_existing_video_by_filename (cat : List VideoRecord) (filename : String) :
    Option VideoRecord :=
  cat.find? (fun r => r.originalFilename == filename)

/-- `create_video_record` / DynamoDB `put_item`: replace the item with
the same `videoId` partition key, or insert a new item. -/
def create_video_record (cat : List VideoRecord) (video_record : VideoRecord) :
    List VideoRecord :=
  if cat.any (fun x => x.videoId == video_record.videoId) then
    cat.map (fun x => if x.videoId == video_record.videoId then video_record else x)
  else
    cat ++ [video_record]

/-- The `videoUrls` update of `handle_job_completion`: a `free` job sets
only the `free` tag; any other job type takes the `else` branch and sets
`standard`, `premium_720p` and `premium_1080p` (in the dict-literal
order of the source's `update`). -/
def completionUrls (job_type cloudfront_domain filename : String)
    (video_urls : List (String × String)) : List (String × String) :=
  if job_type == "free" then
    mapInsert video_urls "free"
      ("https://" ++ cloudfront_domain ++ "/free/" ++ filename ++ "_free_480p.mp4")
  else
    mapInsert (mapInsert (mapInsert video_urls
      "standard" ("https://" ++ cloudfront_domain ++ "/standard/" ++ filename ++ "_standard_480p.mp4"))
      "premium_720p" ("https://" ++ cloudfront_domain ++ "/premium/" ++ filename ++ "_premium_720p.mp4"))
      "premium_1080p" ("https://" ++ cloudfront_domain ++ "/premium/" ++ filename ++ "_premium_1080p.mp4")

/-- The record that `handle_job_completion` passes to
`create_video_record`, or `none` when no filename is extractable.
`new_video_id` stands for the freshly generated `uuid.uuid4()` and
`now` for `datetime.utcnow().isoformat()`. -/
def completionRecord (job_id : String) (detail : EventDetail)
    (cloudfront_domain new_video_id now : String) (cat : List VideoRecord) :
    Option VideoRecord :=
  match extract_filename_from_event detail with
  | none => none
  | some filename =>
    let original_key := filename ++ ".mp4"
    let existing_video := find_existing_video_by_filename cat filename
    let job_type := get_job_type_from_detail detail
    let video_urls := completionUrls job_type cloudfront_domain filename
      (match existing_video with
       | some v => v.videoUrls
       | none => [])
    let thumbnail_url := extract_thumbnail_url_from_event detail cloudfront_domain filename
    let duration := extract_duration_from_job_detail detail
    let video_record :=
      match existing_video with
      | some v =>
        let updated := { v with
          videoUrls := video_urls,
          mediaConvertJobId := v.mediaConvertJobId ++ "," ++ job_id,
          completedDate := some now }
        if job_type == "full" then { updated with thumbnailUrl := some thumbnail_url }
        else updated
      | none =>
        { videoId := new_video_id,
          originalFilename := filename,
          originalKey := original_key,
          inputBucket := "processed",
          mediaConvertJobId := job_id,
          status := "completed",
          videoUrls := video_urls,
          thumbnailUrl := some thumbnail_url,
          availableQualities := ["480p", "720p", "1080p"],
          uploadDate := some now,
          completedDate := some now,
          title := titleCase (strReplace (strReplace filename "_" " ") "-" " "),
          description := "Video processed from " ++ original_key }
    some (match duration with
      | some d => if d != 0 then { video_record with duration := some d } else video_record
      | none => video_record)

/-- `handle_job_completion`: build the merged/new record and upsert it;
no mutation when no filename is extractable. -/
def handle_job_completion (job_id : String) (detail : EventDetail)
    (cloudfront_domain new_video_id now : String) (cat : List VideoRecord) :
    List VideoRecord :=
  match completionRecord job_id detail cloudfront_domain new_video_id now cat with
  | none => cat
  | some r => create_video_record cat r

/-- `handle_job_error`: always creates a fresh `failed` record; when no
filename is extractable it synthesizes `failed_job_<jobId>`. -/
def handle_job_error (job_id : String) (detail : EventDetail)
    (new_video_id now : String) (cat : List VideoRecord) : List VideoRecord :=
  let filename := (extract_filename_from_event detail).getD ("failed_job_" ++ job_id)
  let original_key := filename ++ ".mp4"
  let video_record : VideoRecord :=
    { videoId := new_video_id,
      originalFilename := filename,
      originalKey := original_key,
      inputBucket := "failed",
      mediaConvertJobId := job_id,
      status := "failed",
      uploadDate := some now,
      errorDate := some now,
      errorMessage := some (detail.errorMessage.getD "Unknown error"),
      errorCode := some (detail.errorCode.getD "UNKNOWN_ERROR"),
      title := titleCase (strReplace (strReplace filename "_" " ") "-" " "),
      description := "Failed to process video from " ++ original_key }
  create_video_record cat video_record

/-- One Cognito user attribute (`Name`/`Value` pair). -/
structure UserAttr where
  name : String
  value : String
  deriving Repr, DecidableEq

/-- `get_user_subscription`: the identity-store lookup either fails
(`ClientError`) or yields the user's attribute list; the first
`custom:subscription_type` attribute is mapped through the legacy table,
defaulting to `free` on any other value, a missing attribute, or the
lookup error. -/
def get_user_subscription (lookup : Except String (List UserAttr)) : String :=
  match lookup with
  | Except.error _ => "free"
  | Except.ok attrs =>
    let subscription_type :=
      (attrs.find? (fun a => a.name == "custom:subscription_type")).map (·.value)
    match subscription_type with
    | some "trial" => "free"
    | some "saving" => "standard"
    | some "guest" => "free"
    | some s => if s == "free" || s == "standard" || s == "premium" then s else "free"
    | none => "free"

/-- A value in the `features` block of a playback response (the source
mixes numbers and booleans in one dict). -/
inductive FeatureVal where
  | num : Nat → FeatureVal
  | flag : Bool → FeatureVal
  deriving Repr, DecidableEq

/-- The JSON playback descriptor built by `generate_video_response`
(`duration` kept in integer milliseconds, see the module comment). -/
structure VideoResponse where
  videoId : String
  title : String
  description : String
  thumbnail : String
  duration : Nat
  subscriptionType : String
  videoUrl : String
  quality : Option String
  maxDuration : Option Nat
  availableQualities : List String
  user : String
  features : List (String × FeatureVal)
  deriving Repr, DecidableEq

/-- `get_available_qualities`. -/
def get_available_qualities (subscription_type : String) : List String :=
  if subscription_type == "free" then ["480p"]
  else if subscription_type == "standard" then ["480p"]
  else if subscription_type == "premium" then ["480p", "720p", "1080p"]
  else ["480p"]

/-- `generate_cloudfront_signed_url`: append an absolute epoch-seconds
expiry as a query parameter — `now + 15 * 60` for the free tier,
`now + 2 * 3600` otherwise.  `now` is `datetime.utcnow()` in epoch
seconds. -/
def generate_cloudfront_signed_url (video_url subscription_type : String) (now : Nat) : String :=
  let expiration_time := if subscription_type == "free" then now + 900 else now + 7200
  video_url ++ "?expires=" ++ toString expiration_time

/-- `generate_video_response`: select the rendition URL, reported
quality and duration cap from the tier (and, for premium, the requested
quality, defaulting to `720p`); raise (`Except.error`) when the selected
tag is absent.  `quality_param` is the `quality` query-string parameter
when present. -/
def generate_video_response (video_id subscription_type username : String)
    (video_metadata : VideoRecord) (quality_param : Option String) (now : Nat) :
    Except String VideoResponse :=
  let video_urls := video_metadata.videoUrls
  let sel : Option String × Option String × Option Nat :=
    if subscription_type == "free" then
      (mapLookup video_urls "free", some "480p", some 10)
    else if subscription_type == "standard" then
      (mapLookup video_urls "standard", some "480p", none)
    else if subscription_type == "premium" then
      let requested_quality := quality_param.getD "720p"
      if requested_quality == "1080p" then
        (mapLookup video_urls "premium_1080p", some "1080p", none)
      else if requested_quality == "480p" then
        (mapLookup video_urls "standard", some "480p", none)
      else
        (mapLookup video_urls "premium_720p", some "720p", none)
    else
      (none, none, none)
  match sel.1 with
  | none => Except.error ("Video not available for subscription type: " ++ subscription_type)
  | some video_url =>
    Except.ok
      { videoId := video_id,
        title := video_metadata.title,
        description := video_metadata.description,
        thumbnail := video_metadata.thumbnailUrl.getD "",
        duration := video_metadata.duration.getD 0,
        subscriptionType := subscription_type,
        videoUrl := generate_cloudfront_signed_url video_url subscription_type now,
        quality := sel.2.1,
        maxDuration := sel.2.2,
        availableQualities := get_available_qualities subscription_type,
        user := username,
        features :=
          if subscription_type == "free" then [("maxDuration", FeatureVal.num 10)]
          else if subscription_type == "standard" then [("fullAccess", FeatureVal.flag true)]
          else if subscription_type == "premium" then
            [("fullAccess", FeatureVal.flag true), ("qualitySelection", FeatureVal.flag true)]
          else [] }

/-- Outcome of a playback request: a descriptor or an HTTP error
response (status code and message). -/
inductive StreamOutcome where
  | ok : VideoResponse → StreamOutcome
  | err : Nat → String → StreamOutcome
  deriving Repr, DecidableEq

/-- The post-authentication core of the streamer's `lambda_handler`:
404 when the `videoId` lookup finds nothing, 202 while the record's
status is not `completed`, and the `generate_video_response` exception
surfaces as the 500 catch-all of the surrounding `try`/`except`. -/
def serve_video (video_id subscription_type username : String)
    (video_metadata : Option VideoRecord) (quality_param : Option String) (now : Nat) :
    StreamOutcome :=
  match video_metadata with
  | none => StreamOutcome.err 404 "Video not found"
  | some m =>
    if m.status != "completed" then
      StreamOutcome.err 202 "Video is still processing"
    else
      match generate_video_response video_id subscription_type username m quality_param now with
      | Except.error msg => StreamOutcome.err 500 ("Internal server error: " ++ msg)
      | Except.ok r => StreamOutcome.ok r

/-! ### Association-map lemmas -/

theorem find?_map_insertFun_self (m : List (String × String)) (k v : String)
    (h : m.any (fun p => p.1 == k) = true) :
    (m.map (fun p => if p.1 == k then (k, v) else p)).find? (fun p => p.1 == k) = some (k, v) := by
  induction m with
  | nil => simp at h
  | cons p ps ih =>
    rw [List.map_cons]
    by_cases hp : p.1 = k
    · rw [if_pos (by simpa using hp)]
      rw [List.find?_cons_of_pos _ (by simp)]
    · rw [if_neg (by simpa using hp)]
      rw [List.find?_cons_of_neg _ (by simpa using hp)]
      apply ih
      have h' := h
      simp only [List.any_cons, Bool.or_eq_true, beq_iff_eq] at h'
      rcases h' with h' | h'
      · exact absurd h' hp
      · exact h'

theorem find?_map_insertFun_ne (m : List (String × String)) (k v k' : String) (hne : k' ≠ k) :
    (m.map (fun p => if p.1 == k then (k, v) else p)).find? (fun p => p.1 == k')
      = m.find? (fun p => p.1 == k') := by
  have hkk' : ¬(k = k') := fun h => hne h.symm
  induction m with
  | nil => rfl
  | cons p ps ih =>
    rw [List.map_cons]
    by_cases hp : p.1 = k
    · rw [if_pos (by simpa using hp)]
      rw [List.find?_cons_of_neg _ (by simpa using hkk'),
          List.find?_cons_of_neg _ (by rw [hp]; simpa using hkk')]
      exact ih
    · rw [if_neg (by simpa using hp)]
      by_cases hp' : p.1 = k'
      · rw [List.find?_cons_of_pos _ (by simpa using hp'),
            List.find?_cons_of_pos _ (by simpa using hp')]
      · rw [List.find?_cons_of_neg _ (by simpa using hp'),
            List.find?_cons_of_neg _ (by simpa using hp')]
        exact ih

theorem mapLookup_mapInsert (m : List (String × String)) (k v k' : String) :
    mapLookup (mapInsert m k v) k' = if k' = k then some v else mapLookup m k' := by
  unfold mapLookup mapInsert
  by_cases hany : m.any (fun p => p.1 == k)
  · rw [if_pos hany]
    by_cases hk : k' = k
    · subst hk
      rw [find?_map_insertFun_self m k' v hany]
      simp
    · rw [find?_map_insertFun_ne m k v k' hk]
      simp [hk]
  · rw [if_neg hany]
    rw [List.find?_append]
    by_cases hk : k' = k
    · subst hk
      have hnone : m.find? (fun p => p.1 == k') = none := by
        rw [List.find?_eq_none]
        intro p hp hpk
        exact hany (List.any_eq_true.mpr ⟨p, hp, hpk⟩)
      simp [hnone]
    · have h1 : ((k, v).1 == k') = false := by
        rw [beq_eq_false_iff_ne]
        exact fun h => hk h.symm
      simp [h1, hk]

/-- The association list binds key `k` (at least once) and every binding
of `k` carries the value `v`. -/
def MapBinds (m : List (String × String)) (k v : String) : Prop :=
  (∃ p ∈ m, p.1 = k) ∧ ∀ p ∈ m, p.1 = k → p.2 = v

theorem mapBinds_mapInsert_self (m : List (String × String)) (k v : String) :
    MapBinds (mapInsert m k v) k v := by
  unfold mapInsert
  by_cases hany : m.any (fun p => p.1 == k)
  · rw [if_pos hany]
    obtain ⟨p, hp, hpk⟩ := List.any_eq_true.mp hany
    constructor
    · exact ⟨(k, v), List.mem_map.mpr ⟨p, hp, by rw [if_pos hpk]⟩, rfl⟩
    · intro q hq hqk
      obtain ⟨p', hp', hp'eq⟩ := List.mem_map.mp hq
      by_cases h : p'.1 = k
      · rw [if_pos (by simpa using h)] at hp'eq
        rw [← hp'eq]
      · rw [if_neg (by simpa using h)] at hp'eq
        subst hp'eq
        exact absurd hqk h
  · rw [if_neg hany]
    constructor
    · exact ⟨(k, v), List.mem_append.mpr (Or.inr (by simp)), rfl⟩
    · intro q hq hqk
      rcases List.mem_append.mp hq with hmem | hmem
      · exact absurd (List.any_eq_true.mpr ⟨q, hmem, by simpa using hqk⟩) hany
      · simp at hmem
        subst hmem
        rfl

theorem mapBinds_mapInsert_of_ne (m : List (String × String)) (k v k' v' : String)
    (hne : k' ≠ k) (h : MapBinds m k' v') : MapBinds (mapInsert m k v) k' v' := by
  obtain ⟨⟨p0, hp0, hp0k⟩, hval⟩ := h
  have hp0ne : (p0.1 == k) = false := by
    rw [beq_eq_false_iff_ne, hp0k]
    exact hne
  unfold mapInsert
  by_cases hany : m.any (fun p => p.1 == k)
  · rw [if_pos hany]
    refine ⟨⟨p0, List.mem_map.mpr ⟨p0, hp0, by rw [hp0ne]; simp⟩, hp0k⟩, ?_⟩
    intro q hq hqk
    obtain ⟨p', hp', hp'eq⟩ := List.mem_map.mp hq
    by_cases hpk : p'.1 = k
    · rw [if_pos (by simpa using hpk)] at hp'eq
      rw [← hp'eq] at hqk
      exact absurd hqk.symm hne
    · rw [if_neg (by simpa using hpk)] at hp'eq
      subst hp'eq
      exact hval p' hp' hqk
  · rw [if_neg hany]
    refine ⟨⟨p0, List.mem_append.mpr (Or.inl hp0), hp0k⟩, ?_⟩
    intro q hq hqk
    rcases List.mem_append.mp hq with hmem | hmem
    · exact hval q hmem hqk
    · simp at hmem
      subst hmem
      exact absurd hqk.symm hne

theorem mapInsert_of_mapBinds (m : List (String × String)) (k v : String)
    (h : MapBinds m k v) : mapInsert m k v = m := by
  obtain ⟨⟨p0, hp0, hp0k⟩, hval⟩ := h
  unfold mapInsert
  have hany : m.any (fun p => p.1 == k) = true :=
    List.any_eq_true.mpr ⟨p0, hp0, by simpa using hp0k⟩
  rw [if_pos hany]
  have hcongr : ∀ p ∈ m, (if p.1 == k then (k, v) else p) = id p := by
    intro p hp
    by_cases hpk : p.1 = k
    · have hv := hval p hp hpk
      rw [if_pos (by simpa using hpk), ← hpk, ← hv]
      rfl
    · rw [if_neg (by simpa using hpk)]
      rfl
  rw [List.map_congr_left hcongr, List.map_id]

theorem mapInsert3_idem (b : List (String × String)) (k1 k2 k3 v1 v2 v3 : String)
    (h12 : k1 ≠ k2) (h13 : k1 ≠ k3) (h23 : k2 ≠ k3) :
    mapInsert (mapInsert (mapInsert
        (mapInsert (mapInsert (mapInsert b k1 v1) k2 v2) k3 v3) k1 v1) k2 v2) k3 v3
      = mapInsert (mapInsert (mapInsert b k1 v1) k2 v2) k3 v3 := by
  have h1 : MapBinds (mapInsert (mapInsert (mapInsert b k1 v1) k2 v2) k3 v3) k1 v1 :=
    mapBinds_mapInsert_of_ne _ k3 v3 k1 v1 h13
      (mapBinds_mapInsert_of_ne _ k2 v2 k1 v1 h12 (mapBinds_mapInsert_self _ _ _))
  have h2 : MapBinds (mapInsert (mapInsert (mapInsert b k1 v1) k2 v2) k3 v3) k2 v2 :=
    mapBinds_mapInsert_of_ne _ k3 v3 k2 v2 h23 (mapBinds_mapInsert_self _ _ _)
  rw [mapInsert_of_mapBinds _ _ _ h1, mapInsert_of_mapBinds _ _ _ h2,
      mapInsert_of_mapBinds _ _ _ (mapBinds_mapInsert_self _ _ _)]

theorem completionUrls_idem (job_type cloudfront_domain filename : String)
    (b : List (String × String)) :
    completionUrls job_type cloudfront_domain filename
        (completionUrls job_type cloudfront_domain filename b)
      = completionUrls job_type cloudfront_domain filename b := by
  unfold completionUrls
  by_cases hjt : job_type = "free"
  · simp only [hjt, beq_self_eq_true, if_true]
    exact mapInsert_of_mapBinds _ _ _ (mapBinds_mapInsert_self _ _ _)
  · have hb : (job_type == "free") = false := by
      rw [beq_eq_false_iff_ne]
      exact hjt
    simp only [hb, Bool.false_eq_true, if_false]
    exact mapInsert3_idem b _ _ _ _ _ _ (by decide) (by decide) (by decide)

/-- Pointwise view of the `videoUrls` update: what each tag maps to
after a completion of the given job type. -/
theorem mapLookup_completionUrls (job_type cloudfront_domain filename : String)
    (b : List (String × String)) (tag : String) :
    mapLookup (completionUrls job_type cloudfront_domain filename b) tag =
      if job_type == "free" then
        (if tag = "free" then
          some ("https://" ++ cloudfront_domain ++ "/free/" ++ filename ++ "_free_480p.mp4")
         else mapLookup b tag)
      else
        (if tag = "premium_1080p" then
          some ("https://" ++ cloudfront_domain ++ "/premium/" ++ filename ++ "_premium_1080p.mp4")
         else if tag = "premium_720p" then
          some ("https://" ++ cloudfront_domain ++ "/premium/" ++ filename ++ "_premium_720p.mp4")
         else if tag = "standard" then
          some ("https://" ++ cloudfront_domain ++ "/standard/" ++ filename ++ "_standard_480p.mp4")
         else mapLookup b tag) := by
  unfold completionUrls
  by_cases hjt : job_type = "free"
  · simp only [hjt, beq_self_eq_true, if_true]
    rw [mapLookup_mapInsert]
  · have hb : (job_type == "free") = false := by
      rw [beq_eq_false_iff_ne]
      exact hjt
    simp only [hb, Bool.false_eq_true, if_false]
    rw [mapLookup_mapInsert, mapLookup_mapInsert, mapLookup_mapInsert]

/-! ### Catalog lemmas -/

theorem find_existing_some (cat : List VideoRecord) (f : String) (v : VideoRecord)
    (h : find_existing_video_by_filename cat f = some v) :
    v ∈ cat ∧ v.originalFilename = f :=
  ⟨List.mem_of_find?_eq_some h, by simpa using List.find?_some h⟩

theorem create_of_fresh (cat : List VideoRecord) (r : VideoRecord)
    (hfresh : ∀ x ∈ cat, x.videoId ≠ r.videoId) :
    create_video_record cat r = cat ++ [r] := by
  unfold create_video_record
  have hany : ¬(cat.any (fun x => x.videoId == r.videoId) = true) := by
    rw [List.any_eq_true]
    rintro ⟨x, hx, he⟩
    exact hfresh x hx (by simpa using he)
  rw [if_neg hany]

theorem find_create_of_not_found (cat : List VideoRecord) (r : VideoRecord) (f : String)
    (h : find_existing_video_by_filename cat f = none)
    (hfresh : ∀ x ∈ cat, x.videoId ≠ r.videoId)
    (hr : r.originalFilename = f) :
    find_existing_video_by_filename (create_video_record cat r) f = some r := by
  rw [create_of_fresh cat r hfresh]
  unfold find_existing_video_by_filename at h ⊢
  rw [List.find?_append, h]
  simp [List.find?_cons_of_pos, hr]

theorem find?_replace_map (xs : List VideoRecord) (r0 r : VideoRecord) (f : String)
    (h : xs.find? (fun x => x.originalFilename == f) = some r0)
    (hid : r.videoId = r0.videoId) (hr : r.originalFilename = f)
    (hnd : (xs.map (fun x => x.videoId)).Nodup) :
    (xs.map (fun x => if x.videoId == r.videoId then r else x)).find?
        (fun x => x.originalFilename == f) = some r := by
  induction xs with
  | nil => simp at h
  | cons x xs ih =>
    rw [List.map_cons] at hnd ⊢
    rw [List.nodup_cons] at hnd
    by_cases hx : x.originalFilename = f
    · rw [List.find?_cons_of_pos _ (by simpa using hx)] at h
      injection h with h
      subst h
      rw [if_pos (by simpa using hid.symm)]
      rw [List.find?_cons_of_pos _ (by simpa using hr)]
    · rw [List.find?_cons_of_neg _ (by simpa using hx)] at h
      have hr0mem : r0 ∈ xs := List.mem_of_find?_eq_some h
      have hxne : x.videoId ≠ r.videoId := by
        intro heq
        apply hnd.1
        rw [heq, hid]
        exact List.mem_map.mpr ⟨r0, hr0mem, rfl⟩
      rw [if_neg (by simpa using hxne)]
      rw [List.find?_cons_of_neg _ (by simpa using hx)]
      exact ih h hnd.2

theorem find_create_of_found (cat : List VideoRecord) (r0 r : VideoRecord) (f : String)
    (h : find_existing_video_by_filename cat f = some r0)
    (hid : r.videoId = r0.videoId)
    (hr : r.originalFilename = f)
    (hnd : (cat.map (fun x => x.videoId)).Nodup) :
    find_existing_video_by_filename (create_video_record cat r) f = some r := by
  have hmem : r0 ∈ cat := List.mem_of_find?_eq_some h
  unfold create_video_record
  rw [if_pos (List.any_eq_true.mpr ⟨r0, hmem, by simpa using hid.symm⟩)]
  exact find?_replace_map cat r0 r f h hid hr hnd

theorem create_map_videoId_replace (cat : List VideoRecord) (r r0 : VideoRecord)
    (hmem : r0 ∈ cat) (hid : r.videoId = r0.videoId) :
    (create_video_record cat r).map (fun x => x.videoId) = cat.map (fun x => x.videoId) := by
  unfold create_video_record
  rw [if_pos (List.any_eq_true.mpr ⟨r0, hmem, by simpa using hid.symm⟩)]
  rw [List.map_map]
  apply List.map_congr_left
  intro x hx
  simp only [Function.comp_apply]
  by_cases h : x.videoId = r.videoId
  · rw [if_pos (by simpa using h)]
    exact h.symm
  · rw [if_neg (by simpa using h)]

/-! ### completionRecord characterization -/

theorem completionRecord_of_not_found (job_id : String) (detail : EventDetail)
    (dom vid now : String) (cat : List VideoRecord) (f : String)
    (hf : extract_filename_from_event detail = some f)
    (hex : find_existing_video_by_filename cat f = none) :
    ∃ r, completionRecord job_id detail dom vid now cat = some r ∧
      r.videoId = vid ∧
      r.originalFilename = f ∧
      r.status = "completed" ∧
      r.videoUrls = completionUrls (get_job_type_from_detail detail) dom f [] ∧
      r.thumbnailUrl = some (extract_thumbnail_url_from_event detail dom f) ∧
      r.completedDate = some now ∧
      r.mediaConvertJobId = job_id := by
  simp only [completionRecord, hf, hex]
  cases hd : extract_duration_from_job_detail detail with
  | none => exact ⟨_, rfl, rfl, rfl, rfl, rfl, rfl, rfl, rfl⟩
  | some d =>
    by_cases hd0 : d = 0
    · simp only [hd0, bne_self_eq_false, Bool.false_eq_true, if_false]
      exact ⟨_, rfl, rfl, rfl, rfl, rfl, rfl, rfl, rfl⟩
    · have : (d != 0) = true := by simpa using hd0
      simp only [this, if_true]
      exact ⟨_, rfl, rfl, rfl, rfl, rfl, rfl, rfl, rfl⟩

theorem completionRecord_of_found (job_id : String) (detail : EventDetail)
    (dom vid now : String) (cat : List VideoRecord) (f : String) (v : VideoRecord)
    (hf : extract_filename_from_event detail = some f)
    (hex : find_existing_video_by_filename cat f = some v) :
    ∃ r, completionRecord job_id detail dom vid now cat = some r ∧
      r.videoId = v.videoId ∧
      r.originalFilename = v.originalFilename ∧
      r.status = v.status ∧
      r.videoUrls = completionUrls (get_job_type_from_detail detail) dom f v.videoUrls ∧
      r.thumbnailUrl = (if get_job_type_from_detail detail = "full"
        then some (extract_thumbnail_url_from_event detail dom f) else v.thumbnailUrl) ∧
      r.completedDate = some now ∧
      r.mediaConvertJobId = v.mediaConvertJobId ++ "," ++ job_id := by
  simp only [completionRecord, hf, hex]
  by_cases hjt : get_job_type_from_detail detail = "full"
  · simp only [hjt, beq_self_eq_true, if_true]
    cases hd : extract_duration_from_job_detail detail with
    | none => exact ⟨_, rfl, rfl, rfl, rfl, rfl, rfl, rfl, rfl⟩
    | some d =>
      by_cases hd0 : d = 0
      · simp only [hd0, bne_self_eq_false, Bool.false_eq_true, if_false]
        exact ⟨_, rfl, rfl, rfl, rfl, rfl, rfl, rfl, rfl⟩
      · have : (d != 0) = true := by simpa using hd0
        simp only [this, if_true]
        exact ⟨_, rfl, rfl, rfl, rfl, rfl, rfl, rfl, rfl⟩
  · have hb : (get_job_type_from_detail detail == "full") = false := by
      rw [beq_eq_false_iff_ne]
      exact hjt
    simp only [hb, Bool.false_eq_true, if_false, hjt]
    cases hd : extract_duration_from_job_detail detail with
    | none => exact ⟨_, rfl, rfl, rfl, rfl, rfl, rfl, rfl, rfl⟩
    | some d =>
      by_cases hd0 : d = 0
      · simp only [hd0, bne_self_eq_false, Bool.false_eq_true, if_false]
        exact ⟨_, rfl, rfl, rfl, rfl, rfl, rfl, rfl, rfl⟩
      · have : (d != 0) = true := by simpa using hd0
        simp only [this, if_true]
        exact ⟨_, rfl, rfl, rfl, rfl, rfl, rfl, rfl, rfl⟩

theorem handle_job_completion_eq (job_id : String) (detail : EventDetail)
    (dom vid now : String) (cat : List VideoRecord) (r : VideoRecord)
    (h : completionRecord job_id detail dom vid now cat = some r) :
    handle_job_completion job_id detail dom vid now cat = create_video_record cat r := by
  unfold handle_job_completion
  rw [h]

/-! ### Concrete fixtures -/

/-- A success event of the free-preview job for source file `myclip`. -/
def evFree : EventDetail :=
  { outputGroupDetails := [{ outputDetails :=
      [{ outputFilePaths := ["s3://bucket/free/myclip_free_480p.mp4"] }] }] }

/-- A success event of the full job for `myclip` (three renditions and a
thumbnail). -/
def evFull : EventDetail :=
  { outputGroupDetails := [{ outputDetails :=
      [{ outputFilePaths := ["s3://bucket/standard/myclip_standard_480p.mp4",
                             "s3://bucket/premium/myclip_premium_720p.mp4",
                             "s3://bucket/premium/myclip_premium_1080p.mp4"] },
       { outputFilePaths := ["s3://bucket/thumbnails/myclip_thumbnail.0000000.jpg"] }] }] }

/-- A success event for `myclip` whose only output path is the
thumbnail: the filename is extractable but no path carries a `/free/`,
`/standard/` or `/premium/` segment, so the job type is `unknown`. -/
def evThumbOnly : EventDetail :=
  { outputGroupDetails := [{ outputDetails :=
      [{ outputFilePaths := ["s3://bucket/thumbnails/myclip_thumbnail.0000000.jpg"] }] }] }

/-- A failed record for `myclip`, as `handle_job_error` writes when the
error event still exposes an output path for the file. -/
def recFailed : VideoRecord :=
  { videoId := "failed-id", originalFilename := "myclip", status := "failed",
    mediaConvertJobId := "ejob" }

example : extract_filename_from_event evFull = some "myclip" := by decide
example : get_job_type_from_detail evFull = "full" := by decide
example : get_job_type_from_detail evFree = "free" := by decide

/-! ### C1 -/

/-- C1, counterexample: the lookup step of Reconcile does not exclude
failed records.  On a catalog holding only a `failed` record for
`myclip`, `find_existing_video_by_filename` returns that record, and a
success completion event for `myclip` merges into it (the job id is
appended to the failed record and its `videoId` is reused). -/
theorem lookup_returns_failed_record :
    find_existing_video_by_filename [recFailed] "myclip" = some recFailed ∧
    recFailed.status = "failed" ∧
    (handle_job_completion "job1" evFree "cdn.example.com" "vid-1" "t1" [recFailed]).map
        (fun r => (r.videoId, r.status, r.mediaConvertJobId))
      = [("failed-id", "failed", "ejob,job1")] := by
  decide

/-- C1, amended: the lookup-or-create step looks up the first record
whose `originalFilename` equals the extracted filename with no status
condition, so a `failed` record for that filename is returned and a
success event merges into it: the merged record keeps the failed
record's identity and status and the event's job id is appended. -/
theorem success_merges_into_failed_record
    (job_id : String) (detail : EventDetail) (dom vid now f : String)
    (cat : List VideoRecord) (v : VideoRecord)
    (hf : extract_filename_from_event detail = some f)
    (hex : find_existing_video_by_filename cat f = some v)
    (hst : v.status = "failed") :
    v.originalFilename = f ∧
    ∃ r, completionRecord job_id detail dom vid now cat = some r ∧
      r.videoId = v.videoId ∧
      r.status = "failed" ∧
      r.mediaConvertJobId = v.mediaConvertJobId ++ "," ++ job_id := by
  obtain ⟨r, hr, hid, _, hstr, _, _, _, hjid⟩ :=
    completionRecord_of_found job_id detail dom vid now cat f v hf hex
  exact ⟨(find_existing_some cat f v hex).2, r, hr, hid, hst ▸ hstr, hjid⟩

/-- Witness for C1's amended theorem at a concrete input. -/
theorem success_merges_into_failed_record_witness :
    recFailed.originalFilename = "myclip" ∧
    ∃ r, completionRecord "job1" evFree "cdn.example.com" "vid-1" "t1" [recFailed] = some r ∧
      r.videoId = recFailed.videoId ∧
      r.status = "failed" ∧
      r.mediaConvertJobId = recFailed.mediaConvertJobId ++ "," ++ "job1" :=
  success_merges_into_failed_record "job1" evFree "cdn.example.com" "vid-1" "t1" "myclip"
    [recFailed] recFailed (by decide) (by decide) (by decide)

/-! ### C4 -/

/-- C4, counterexample: a success completion that merges into an
existing `failed` record does not set `status = completed` — the merge
branch never touches `status`, so the record stays `failed`. -/
theorem merged_record_keeps_failed_status :
    (handle_job_completion "job2" evFull "cdn.example.com" "vid-9" "t9" [recFailed]).map
        (fun r => r.status) = ["failed"] ∧
    ("failed" : String) ≠ "completed" := by
  decide

/-- C4, amended: on every success event reaching the merge step the
job id is appended and `completedAt` is stamped; but `status` is set to
`completed` only when the record is newly created — merging preserves
the existing record's status (so only records already `completed` end up
`completed`). -/
theorem completion_status_and_jobids
    (job_id : String) (detail : EventDetail) (dom vid now f : String)
    (cat : List VideoRecord)
    (hf : extract_filename_from_event detail = some f) :
    (find_existing_video_by_filename cat f = none →
      ∃ r, completionRecord job_id detail dom vid now cat = some r ∧
        r.status = "completed" ∧ r.completedDate = some now ∧
        r.mediaConvertJobId = job_id) ∧
    (∀ v, find_existing_video_by_filename cat f = some v →
      ∃ r, completionRecord job_id detail dom vid now cat = some r ∧
        r.status = v.status ∧ r.completedDate = some now ∧
        r.mediaConvertJobId = v.mediaConvertJobId ++ "," ++ job_id) := by
  constructor
  · intro hex
    obtain ⟨r, hr, _, _, hst, _, _, hcd, hjid⟩ :=
      completionRecord_of_not_found job_id detail dom vid now cat f hf hex
    exact ⟨r, hr, hst, hcd, hjid⟩
  · intro v hex
    obtain ⟨r, hr, _, _, hst, _, _, hcd, hjid⟩ :=
      completionRecord_of_found job_id detail dom vid now cat f v hf hex
    exact ⟨r, hr, hst, hcd, hjid⟩

/-- Witness for C4's amended theorem at a concrete input. -/
theorem completion_status_and_jobids_witness :
    ∃ r, completionRecord "job1" evFree "cdn.example.com" "vid-1" "t1" [] = some r ∧
      r.status = "completed" ∧ r.completedDate = some "t1" ∧
      r.mediaConvertJobId = "job1" :=
  (completion_status_and_jobids "job1" evFree "cdn.example.com" "vid-1" "t1" "myclip" []
    (by decide)).1 (by decide)

/-! ### C9 -/

/-- C9, counterexample: a success event classified `free` that creates
a new record does introduce a thumbnail — the create branch always
stores `thumbnailUrl`, falling back to the expected naming pattern. -/
theorem free_create_sets_thumbnail :
    get_job_type_from_detail evFree = "free" ∧
    (handle_job_completion "job1" evFree "cdn.example.com" "vid-1" "t1" []).map
        (fun r => r.thumbnailUrl)
      = [some "https://cdn.example.com/thumbnails/myclip_thumbnail.0000000.jpg"] := by
  decide

/-- C9, amended: a `free`-category success event leaves the
`thumbnailUrl` of an existing record unchanged when merging, but a
record it newly creates still gets a `thumbnailUrl` (the extracted
thumbnail URL, or the fallback naming pattern). -/
theorem free_event_thumbnail_behavior
    (job_id : String) (detail : EventDetail) (dom vid now f : String)
    (cat : List VideoRecord)
    (hjt : get_job_type_from_detail detail = "free")
    (hf : extract_filename_from_event detail = some f) :
    (∀ v, find_existing_video_by_filename cat f = some v →
      ∃ r, completionRecord job_id detail dom vid now cat = some r ∧
        r.thumbnailUrl = v.thumbnailUrl) ∧
    (find_existing_video_by_filename cat f = none →
      ∃ r, completionRecord job_id detail dom vid now cat = some r ∧
        r.thumbnailUrl = some (extract_thumbnail_url_from_event detail dom f)) := by
  constructor
  · intro v hex
    obtain ⟨r, hr, _, _, _, _, hth, _, _⟩ :=
      completionRecord_of_found job_id detail dom vid now cat f v hf hex
    rw [hjt] at hth
    rw [if_neg (by decide)] at hth
    exact ⟨r, hr, hth⟩
  · intro hex
    obtain ⟨r, hr, _, _, _, _, hth, _, _⟩ :=
      completionRecord_of_not_found job_id detail dom vid now cat f hf hex
    exact ⟨r, hr, hth⟩

/-- Witness for C9's amended theorem at a concrete input: merging the
free event into the existing failed record leaves its (absent)
thumbnail unchanged. -/
theorem free_event_thumbnail_behavior_witness :
    ∃ r, completionRecord "job1" evFree "cdn.example.com" "vid-1" "t1" [recFailed] = some r ∧
      r.thumbnailUrl = recFailed.thumbnailUrl :=
  (free_event_thumbnail_behavior "job1" evFree "cdn.example.com" "vid-1" "t1" "myclip"
    [recFailed] (by decide) (by decide)).1 recFailed (by decide)

/-! ### C10 -/

theorem completionUrls_eq_full_of_ne_free (job_type dom f : String)
    (b : List (String × String)) (h : job_type ≠ "free") :
    completionUrls job_type dom f b = completionUrls "full" dom f b := by
  unfold completionUrls
  have hb : (job_type == "free") = false := beq_eq_false_iff_ne.mpr h
  have hb' : (("full" : String) == "free") = false := by decide
  simp only [hb, hb', Bool.false_eq_true, if_false]

/-- C10: a success event with an extractable filename but no `/free/`,
`/standard/` or `/premium/` path segment (job type `unknown`) populates
the full-job rendition tags `standard`, `premium_720p` and
`premium_1080p` exactly as a `full`-category event would. -/
theorem unknown_jobtype_populates_full_urls
    (job_id : String) (detail : EventDetail) (dom vid now f : String)
    (cat : List VideoRecord)
    (hjt : get_job_type_from_detail detail = "unknown")
    (hf : extract_filename_from_event detail = some f) :
    ∃ r, completionRecord job_id detail dom vid now cat = some r ∧
      r.videoUrls = completionUrls "full" dom f
        (match find_existing_video_by_filename cat f with
         | some v => v.videoUrls
         | none => []) ∧
      mapLookup r.videoUrls "standard"
        = some ("https://" ++ dom ++ "/standard/" ++ f ++ "_standard_480p.mp4") ∧
      mapLookup r.videoUrls "premium_720p"
        = some ("https://" ++ dom ++ "/premium/" ++ f ++ "_premium_720p.mp4") ∧
      mapLookup r.videoUrls "premium_1080p"
        = some ("https://" ++ dom ++ "/premium/" ++ f ++ "_premium_1080p.mp4") := by
  cases hex : find_existing_video_by_filename cat f with
  | none =>
    obtain ⟨r, hr, _, _, _, hurl, _, _, _⟩ :=
      completionRecord_of_not_found job_id detail dom vid now cat f hf hex
    rw [hjt, completionUrls_eq_full_of_ne_free _ _ _ _ (by decide)] at hurl
    refine ⟨r, hr, hurl, ?_, ?_, ?_⟩ <;>
      simp [hurl, mapLookup_completionUrls]
  | some v =>
    obtain ⟨r, hr, _, _, _, hurl, _, _, _⟩ :=
      completionRecord_of_found job_id detail dom vid now cat f v hf hex
    rw [hjt, completionUrls_eq_full_of_ne_free _ _ _ _ (by decide)] at hurl
    refine ⟨r, hr, hurl, ?_, ?_, ?_⟩ <;>
      simp [hurl, mapLookup_completionUrls]

/-- Witness for C10 at a concrete input (thumbnail-only event). -/
theorem unknown_jobtype_populates_full_urls_witness :
    ∃ r, completionRecord "jobT" evThumbOnly "cdn.example.com" "vid-3" "t3" [] = some r ∧
      r.videoUrls = completionUrls "full" "cdn.example.com" "myclip"
        (match find_existing_video_by_filename [] "myclip" with
         | some v => v.videoUrls
         | none => []) ∧
      mapLookup r.videoUrls "standard"
        = some ("https://" ++ "cdn.example.com" ++ "/standard/" ++ "myclip" ++ "_standard_480p.mp4") ∧
      mapLookup r.videoUrls "premium_720p"
        = some ("https://" ++ "cdn.example.com" ++ "/premium/" ++ "myclip" ++ "_premium_720p.mp4") ∧
      mapLookup r.videoUrls "premium_1080p"
        = some ("https://" ++ "cdn.example.com" ++ "/premium/" ++ "myclip" ++ "_premium_1080p.mp4") :=
  unknown_jobtype_populates_full_urls "jobT" evThumbOnly "cdn.example.com" "vid-3" "t3" "myclip"
    [] (by decide) (by decide)

/-! ### C2 -/

theorem nodup_ids_append (cat : List VideoRecord) (r : VideoRecord)
    (hnd : (cat.map (fun x => x.videoId)).Nodup)
    (hfresh : ∀ x ∈ cat, x.videoId ≠ r.videoId) :
    ((cat ++ [r]).map (fun x => x.videoId)).Nodup := by
  rw [List.map_append, List.nodup_append]
  refine ⟨hnd, List.nodup_singleton _, ?_⟩
  intro a ha hb
  simp only [List.map_cons, List.map_nil, List.mem_singleton] at hb
  obtain ⟨x, hx, rfl⟩ := List.mem_map.mp ha
  exact hfresh x hx hb

/-- C2: replaying the identical success completion event leaves the
record's rendition-URL map unchanged — applying the event a second time
(with a fresh uuid and timestamp of its own) finds the record written by
the first application and re-inserts the very same tag/URL pairs, so the
`videoUrls` of the record for the extracted filename are equal after one
and after two applications.  The catalog is assumed to have distinct
`videoId` keys (a DynamoDB invariant) and the first generated uuid to be
fresh. -/
theorem reconcile_idempotent_renditionUrls
    (job_id : String) (detail : EventDetail) (dom vid1 now1 vid2 now2 f : String)
    (cat : List VideoRecord)
    (hf : extract_filename_from_event detail = some f)
    (hnd : (cat.map (fun x => x.videoId)).Nodup)
    (hfresh : ∀ x ∈ cat, x.videoId ≠ vid1) :
    (find_existing_video_by_filename
        (handle_job_completion job_id detail dom vid2 now2
          (handle_job_completion job_id detail dom vid1 now1 cat)) f).map
        (fun r => r.videoUrls)
      = (find_existing_video_by_filename
          (handle_job_completion job_id detail dom vid1 now1 cat) f).map
          (fun r => r.videoUrls) := by
  cases hex : find_existing_video_by_filename cat f with
  | none =>
    obtain ⟨r1, hr1, hid1, hfn1, _, hurl1, _, _, _⟩ :=
      completionRecord_of_not_found job_id detail dom vid1 now1 cat f hf hex
    rw [handle_job_completion_eq _ _ _ _ _ _ _ hr1]
    have hfresh1 : ∀ x ∈ cat, x.videoId ≠ r1.videoId := by
      intro x hx
      rw [hid1]
      exact hfresh x hx
    have hfind1 : find_existing_video_by_filename (create_video_record cat r1) f = some r1 :=
      find_create_of_not_found cat r1 f hex hfresh1 hfn1
    obtain ⟨r2, hr2, hid2, hfn2, _, hurl2, _, _, _⟩ :=
      completionRecord_of_found job_id detail dom vid2 now2
        (create_video_record cat r1) f r1 hf hfind1
    rw [handle_job_completion_eq _ _ _ _ _ _ _ hr2]
    have hnd1 : ((create_video_record cat r1).map (fun x => x.videoId)).Nodup := by
      rw [create_of_fresh cat r1 hfresh1]
      exact nodup_ids_append cat r1 hnd hfresh1
    have hfind2 : find_existing_video_by_filename
        (create_video_record (create_video_record cat r1) r2) f = some r2 :=
      find_create_of_found (create_video_record cat r1) r1 r2 f hfind1 hid2
        (by rw [hfn2, hfn1]) hnd1
    rw [hfind1, hfind2]
    simp only [Option.map_some']
    rw [hurl2, hurl1, completionUrls_idem]
  | some v =>
    have hvf : v.originalFilename = f := (find_existing_some cat f v hex).2
    have hvmem : v ∈ cat := (find_existing_some cat f v hex).1
    obtain ⟨r1, hr1, hid1, hfn1, _, hurl1, _, _, _⟩ :=
      completionRecord_of_found job_id detail dom vid1 now1 cat f v hf hex
    rw [handle_job_completion_eq _ _ _ _ _ _ _ hr1]
    have hfind1 : find_existing_video_by_filename (create_video_record cat r1) f = some r1 :=
      find_create_of_found cat v r1 f hex hid1 (by rw [hfn1, hvf]) hnd
    obtain ⟨r2, hr2, hid2, hfn2, _, hurl2, _, _, _⟩ :=
      completionRecord_of_found job_id detail dom vid2 now2
        (create_video_record cat r1) f r1 hf hfind1
    rw [handle_job_completion_eq _ _ _ _ _ _ _ hr2]
    have hnd1 : ((create_video_record cat r1).map (fun x => x.videoId)).Nodup := by
      rw [create_map_videoId_replace cat r1 v hvmem hid1]
      exact hnd
    have hfind2 : find_existing_video_by_filename
        (create_video_record (create_video_record cat r1) r2) f = some r2 :=
      find_create_of_found (create_video_record cat r1) r1 r2 f hfind1 hid2
        (by rw [hfn2, hfn1, hvf]) hnd1
    rw [hfind1, hfind2]
    simp only [Option.map_some']
    rw [hurl2, hurl1, completionUrls_idem]

/-- Witness for C2 at a concrete input. -/
theorem reconcile_idempotent_renditionUrls_witness :
    (find_existing_video_by_filename
        (handle_job_completion "job1" evFree "cdn.example.com" "vid-2" "t2"
          (handle_job_completion "job1" evFree "cdn.example.com" "vid-1" "t1" [])) "myclip").map
        (fun r => r.videoUrls)
      = (find_existing_video_by_filename
          (handle_job_completion "job1" evFree "cdn.example.com" "vid-1" "t1" []) "myclip").map
          (fun r => r.videoUrls) :=
  reconcile_idempotent_renditionUrls "job1" evFree "cdn.example.com" "vid-1" "t1" "vid-2" "t2"
    "myclip" [] (by decide) (by decide) (by decide)

/-! ### C3 -/

theorem lookup_free_full_comm (dom f job_type2 : String) (h2 : job_type2 ≠ "free")
    (b : List (String × String)) (tag : String) :
    mapLookup (completionUrls job_type2 dom f (completionUrls "free" dom f b)) tag
      = mapLookup (completionUrls "free" dom f (completionUrls job_type2 dom f b)) tag := by
  have hb : (job_type2 == "free") = false := beq_eq_false_iff_ne.mpr h2
  simp only [mapLookup_completionUrls, hb, Bool.false_eq_true, if_false,
    beq_self_eq_true, if_true]
  split_ifs <;> simp_all

/-- C3: for one filename, a `free`-category completion followed by a
non-`free` (full) completion produces the same rendition-URL map —
pointwise, for every tag — as the two completions applied in the
reverse order.  Catalog keys are assumed distinct and the two freshly
generated uuids fresh. -/
theorem reconcile_commutative_renditionUrls
    (job1 job2 : String) (e1 e2 : EventDetail) (dom vidA nowA vidB nowB f tag : String)
    (cat : List VideoRecord)
    (h1f : extract_filename_from_event e1 = some f)
    (h1t : get_job_type_from_detail e1 = "free")
    (h2f : extract_filename_from_event e2 = some f)
    (h2t : get_job_type_from_detail e2 ≠ "free")
    (hnd : (cat.map (fun x => x.videoId)).Nodup)
    (hfreshA : ∀ x ∈ cat, x.videoId ≠ vidA)
    (hfreshB : ∀ x ∈ cat, x.videoId ≠ vidB) :
    (find_existing_video_by_filename
        (handle_job_completion job2 e2 dom vidB nowB
          (handle_job_completion job1 e1 dom vidA nowA cat)) f).map
        (fun r => mapLookup r.videoUrls tag)
      = (find_existing_video_by_filename
          (handle_job_completion job1 e1 dom vidA nowA
            (handle_job_completion job2 e2 dom vidB nowB cat)) f).map
          (fun r => mapLookup r.videoUrls tag) := by
  cases hex : find_existing_video_by_filename cat f with
  | none =>
    obtain ⟨rA1, hrA1, hidA1, hfnA1, _, hurlA1, _, _, _⟩ :=
      completionRecord_of_not_found job1 e1 dom vidA nowA cat f h1f hex
    rw [handle_job_completion_eq _ _ _ _ _ _ _ hrA1]
    have hfreshA1 : ∀ x ∈ cat, x.videoId ≠ rA1.videoId := by
      intro x hx
      rw [hidA1]
      exact hfreshA x hx
    have hfindA1 : find_existing_video_by_filename (create_video_record cat rA1) f = some rA1 :=
      find_create_of_not_found cat rA1 f hex hfreshA1 hfnA1
    obtain ⟨rA2, hrA2, hidA2, hfnA2, _, hurlA2, _, _, _⟩ :=
      completionRecord_of_found job2 e2 dom vidB nowB
        (create_video_record cat rA1) f rA1 h2f hfindA1
    rw [handle_job_completion_eq _ _ _ _ _ _ _ hrA2]
    have hndA1 : ((create_video_record cat rA1).map (fun x => x.videoId)).Nodup := by
      rw [create_of_fresh cat rA1 hfreshA1]
      exact nodup_ids_append cat rA1 hnd hfreshA1
    have hfindA2 : find_existing_video_by_filename
        (create_video_record (create_video_record cat rA1) rA2) f = some rA2 :=
      find_create_of_found (create_video_record cat rA1) rA1 rA2 f hfindA1 hidA2
        (by rw [hfnA2, hfnA1]) hndA1
    obtain ⟨rB1, hrB1, hidB1, hfnB1, _, hurlB1, _, _, _⟩ :=
      completionRecord_of_not_found job2 e2 dom vidB nowB cat f h2f hex
    rw [handle_job_completion_eq _ _ _ _ _ _ _ hrB1]
    have hfreshB1 : ∀ x ∈ cat, x.videoId ≠ rB1.videoId := by
      intro x hx
      rw [hidB1]
      exact hfreshB x hx
    have hfindB1 : find_existing_video_by_filename (create_video_record cat rB1) f = some rB1 :=
      find_create_of_not_found cat rB1 f hex hfreshB1 hfnB1
    obtain ⟨rB2, hrB2, hidB2, hfnB2, _, hurlB2, _, _, _⟩ :=
      completionRecord_of_found job1 e1 dom vidA nowA
        (create_video_record cat rB1) f rB1 h1f hfindB1
    rw [handle_job_completion_eq _ _ _ _ _ _ _ hrB2]
    have hndB1 : ((create_video_record cat rB1).map (fun x => x.videoId)).Nodup := by
      rw [create_of_fresh cat rB1 hfreshB1]
      exact nodup_ids_append cat rB1 hnd hfreshB1
    have hfindB2 : find_existing_video_by_filename
        (create_video_record (create_video_record cat rB1) rB2) f = some rB2 :=
      find_create_of_found (create_video_record cat rB1) rB1 rB2 f hfindB1 hidB2
        (by rw [hfnB2, hfnB1]) hndB1
    rw [hfindA2, hfindB2]
    simp only [Option.map_some']
    rw [hurlA2, hurlA1, hurlB2, hurlB1, h1t]
    exact congrArg some (lookup_free_full_comm dom f (get_job_type_from_detail e2) h2t [] tag)
  | some v =>
    have hvf : v.originalFilename = f := (find_existing_some cat f v hex).2
    have hvmem : v ∈ cat := (find_existing_some cat f v hex).1
    obtain ⟨rA1, hrA1, hidA1, hfnA1, _, hurlA1, _, _, _⟩ :=
      completionRecord_of_found job1 e1 dom vidA nowA cat f v h1f hex
    rw [handle_job_completion_eq _ _ _ _ _ _ _ hrA1]
    have hfindA1 : find_existing_video_by_filename (create_video_record cat rA1) f = some rA1 :=
      find_create_of_found cat v rA1 f hex hidA1 (by rw [hfnA1, hvf]) hnd
    obtain ⟨rA2, hrA2, hidA2, hfnA2, _, hurlA2, _, _, _⟩ :=
      completionRecord_of_found job2 e2 dom vidB nowB
        (create_video_record cat rA1) f rA1 h2f hfindA1
    rw [handle_job_completion_eq _ _ _ _ _ _ _ hrA2]
    have hndA1 : ((create_video_record cat rA1).map (fun x => x.videoId)).Nodup := by
      rw [create_map_videoId_replace cat rA1 v hvmem hidA1]
      exact hnd
    have hfindA2 : find_existing_video_by_filename
        (create_video_record (create_video_record cat rA1) rA2) f = some rA2 :=
      find_create_of_found (create_video_record cat rA1) rA1 rA2 f hfindA1 hidA2
        (by rw [hfnA2, hfnA1, hvf]) hndA1
    obtain ⟨rB1, hrB1, hidB1, hfnB1, _, hurlB1, _, _, _⟩ :=
      completionRecord_of_found job2 e2 dom vidB nowB cat f v h2f hex
    rw [handle_job_completion_eq _ _ _ _ _ _ _ hrB1]
    have hfindB1 : find_existing_video_by_filename (create_video_record cat rB1) f = some rB1 :=
      find_create_of_found cat v rB1 f hex hidB1 (by rw [hfnB1, hvf]) hnd
    obtain ⟨rB2, hrB2, hidB2, hfnB2, _, hurlB2, _, _, _⟩ :=
      completionRecord_of_found job1 e1 dom vidA nowA
        (create_video_record cat rB1) f rB1 h1f hfindB1
    rw [handle_job_completion_eq _ _ _ _ _ _ _ hrB2]
    have hndB1 : ((create_video_record cat rB1).map (fun x => x.videoId)).Nodup := by
      rw [create_map_videoId_replace cat rB1 v hvmem hidB1]
      exact hnd
    have hfindB2 : find_existing_video_by_filename
        (create_video_record (create_video_record cat rB1) rB2) f = some rB2 :=
      find_create_of_found (create_video_record cat rB1) rB1 rB2 f hfindB1 hidB2
        (by rw [hfnB2, hfnB1, hvf]) hndB1
    rw [hfindA2, hfindB2]
    simp only [Option.map_some']
    rw [hurlA2, hurlA1, hurlB2, hurlB1, h1t]
    exact congrArg some (lookup_free_full_comm dom f (get_job_type_from_detail e2) h2t v.videoUrls tag)

/-- Witness for C3 at a concrete input (the `standard` tag after
free-then-full versus full-then-free, from the empty catalog). -/
theorem reconcile_commutative_renditionUrls_witness :
    (find_existing_video_by_filename
        (handle_job_completion "job2" evFull "cdn.example.com" "vid-2" "t2"
          (handle_job_completion "job1" evFree "cdn.example.com" "vid-1" "t1" [])) "myclip").map
        (fun r => mapLookup r.videoUrls "standard")
      = (find_existing_video_by_filename
          (handle_job_completion "job1" evFree "cdn.example.com" "vid-1" "t1"
            (handle_job_completion "job2" evFull "cdn.example.com" "vid-2" "t2" [])) "myclip").map
          (fun r => mapLookup r.videoUrls "standard") :=
  reconcile_commutative_renditionUrls "job1" "job2" evFree evFull "cdn.example.com"
    "vid-1" "t1" "vid-2" "t2" "myclip" "standard" [] (by decide) (by decide) (by decide)
    (by decide) (by decide) (by decide) (by decide)

/-! ### C5 -/

/-- A completed record holding all four rendition tags. -/
def recDone : VideoRecord :=
  { videoId := "vid-1", originalFilename := "myclip", status := "completed",
    videoUrls := [("free", "uf"), ("standard", "us"),
                  ("premium_720p", "u7"), ("premium_1080p", "u10")] }

/-- C5: the rendition-selection table.  On a record holding the
required tags, the free tier always serves the `free` tag at `480p`
with a 10-second cap (ignoring any requested quality); standard serves
the `standard` tag at `480p` uncapped; premium serves `premium_1080p`
for requested `1080p`, the `standard` tag for requested `480p`, and
`premium_720p` for requested `720p` or no requested quality — all
uncapped. -/
theorem authorize_rendition_selection
    (video_id username : String) (m : VideoRecord) (now : Nat)
    (uf us u7 u10 : String)
    (hfree : mapLookup m.videoUrls "free" = some uf)
    (hstd : mapLookup m.videoUrls "standard" = some us)
    (h720 : mapLookup m.videoUrls "premium_720p" = some u7)
    (h1080 : mapLookup m.videoUrls "premium_1080p" = some u10) :
    (∀ qp, ∃ r, generate_video_response video_id "free" username m qp now = Except.ok r ∧
        r.videoUrl = generate_cloudfront_signed_url uf "free" now ∧
        r.quality = some "480p" ∧ r.maxDuration = some 10) ∧
    (∀ qp, ∃ r, generate_video_response video_id "standard" username m qp now = Except.ok r ∧
        r.videoUrl = generate_cloudfront_signed_url us "standard" now ∧
        r.quality = some "480p" ∧ r.maxDuration = none) ∧
    (∃ r, generate_video_response video_id "premium" username m (some "1080p") now = Except.ok r ∧
        r.videoUrl = generate_cloudfront_signed_url u10 "premium" now ∧
        r.quality = some "1080p" ∧ r.maxDuration = none) ∧
    (∃ r, generate_video_response video_id "premium" username m (some "480p") now = Except.ok r ∧
        r.videoUrl = generate_cloudfront_signed_url us "premium" now ∧
        r.quality = some "480p" ∧ r.maxDuration = none) ∧
    (∃ r, generate_video_response video_id "premium" username m (some "720p") now = Except.ok r ∧
        r.videoUrl = generate_cloudfront_signed_url u7 "premium" now ∧
        r.quality = some "720p" ∧ r.maxDuration = none) ∧
    (∃ r, generate_video_response video_id "premium" username m none now = Except.ok r ∧
        r.videoUrl = generate_cloudfront_signed_url u7 "premium" now ∧
        r.quality = some "720p" ∧ r.maxDuration = none) := by
  refine ⟨fun qp => ?_, fun qp => ?_, ?_, ?_, ?_, ?_⟩ <;>
    simp only [generate_video_response, hfree, hstd, h720, h1080] <;>
    exact ⟨_, rfl, rfl, rfl, rfl⟩

/-- Witness for C5 at a concrete record. -/
theorem authorize_rendition_selection_witness :
    (∀ qp, ∃ r, generate_video_response "v1" "free" "alice" recDone qp 1000 = Except.ok r ∧
        r.videoUrl = generate_cloudfront_signed_url "uf" "free" 1000 ∧
        r.quality = some "480p" ∧ r.maxDuration = some 10) ∧
    (∀ qp, ∃ r, generate_video_response "v1" "standard" "alice" recDone qp 1000 = Except.ok r ∧
        r.videoUrl = generate_cloudfront_signed_url "us" "standard" 1000 ∧
        r.quality = some "480p" ∧ r.maxDuration = none) ∧
    (∃ r, generate_video_response "v1" "premium" "alice" recDone (some "1080p") 1000 = Except.ok r ∧
        r.videoUrl = generate_cloudfront_signed_url "u10" "premium" 1000 ∧
        r.quality = some "1080p" ∧ r.maxDuration = none) ∧
    (∃ r, generate_video_response "v1" "premium" "alice" recDone (some "480p") 1000 = Except.ok r ∧
        r.videoUrl = generate_cloudfront_signed_url "us" "premium" 1000 ∧
        r.quality = some "480p" ∧ r.maxDuration = none) ∧
    (∃ r, generate_video_response "v1" "premium" "alice" recDone (some "720p") 1000 = Except.ok r ∧
        r.videoUrl = generate_cloudfront_signed_url "u7" "premium" 1000 ∧
        r.quality = some "720p" ∧ r.maxDuration = none) ∧
    (∃ r, generate_video_response "v1" "premium" "alice" recDone none 1000 = Except.ok r ∧
        r.videoUrl = generate_cloudfront_signed_url "u7" "premium" 1000 ∧
        r.quality = some "720p" ∧ r.maxDuration = none) :=
  authorize_rendition_selection "v1" "alice" recDone 1000 "uf" "us" "u7" "u10"
    (by decide) (by decide) (by decide) (by decide)

/-! ### C6 -/

/-- C6: every successful authorization serves exactly a stored
rendition URL with the expiry query parameter appended; the absolute
expiry is `now + 900` seconds for the free tier and `now + 7200`
seconds otherwise (standard and premium). -/
theorem authorize_url_expiry
    (video_id subscription_type username : String) (m : VideoRecord)
    (qp : Option String) (now : Nat) (r : VideoResponse)
    (h : generate_video_response video_id subscription_type username m qp now = Except.ok r) :
    ∃ tag u, mapLookup m.videoUrls tag = some u ∧
      r.videoUrl = u ++ "?expires="
        ++ toString (now + (if subscription_type = "free" then 900 else 7200)) := by
  by_cases h1 : subscription_type = "free"
  · subst h1
    simp only [generate_video_response, String.reduceBEq, reduceIte, Bool.false_eq_true, if_false] at h
    cases hm : mapLookup m.videoUrls "free" with
    | none => rw [hm] at h; simp at h
    | some u =>
      rw [hm] at h
      simp only [Except.ok.injEq] at h
      subst h
      exact ⟨"free", u, hm, by simp [generate_cloudfront_signed_url]⟩
  · have b1 : (subscription_type == "free") = false := beq_eq_false_iff_ne.mpr h1
    by_cases h2 : subscription_type = "standard"
    · subst h2
      simp only [generate_video_response, String.reduceBEq, reduceIte, Bool.false_eq_true, if_false] at h
      cases hm : mapLookup m.videoUrls "standard" with
      | none => rw [hm] at h; simp at h
      | some u =>
        rw [hm] at h
        simp only [Except.ok.injEq] at h
        subst h
        exact ⟨"standard", u, hm, by simp [generate_cloudfront_signed_url, h1]⟩
    · by_cases h3 : subscription_type = "premium"
      · subst h3
        simp only [generate_video_response, String.reduceBEq, reduceIte, Bool.false_eq_true, if_false] at h
        by_cases hq1 : qp.getD "720p" = "1080p"
        · simp only [hq1, String.reduceBEq, reduceIte, Bool.false_eq_true, if_false] at h
          cases hm : mapLookup m.videoUrls "premium_1080p" with
          | none => rw [hm] at h; simp at h
          | some u =>
            rw [hm] at h
            simp only [Except.ok.injEq] at h
            subst h
            exact ⟨"premium_1080p", u, hm, by simp [generate_cloudfront_signed_url, h1]⟩
        · have bq1 : (qp.getD "720p" == "1080p") = false := beq_eq_false_iff_ne.mpr hq1
          simp only [bq1, Bool.false_eq_true, if_false] at h
          by_cases hq2 : qp.getD "720p" = "480p"
          · simp only [hq2, String.reduceBEq, reduceIte, Bool.false_eq_true, if_false] at h
            cases hm : mapLookup m.videoUrls "standard" with
            | none => rw [hm] at h; simp at h
            | some u =>
              rw [hm] at h
              simp only [Except.ok.injEq] at h
              subst h
              exact ⟨"standard", u, hm, by simp [generate_cloudfront_signed_url, h1]⟩
          · have bq2 : (qp.getD "720p" == "480p") = false := beq_eq_false_iff_ne.mpr hq2
            simp only [bq2, Bool.false_eq_true, if_false] at h
            cases hm : mapLookup m.videoUrls "premium_720p" with
            | none => rw [hm] at h; simp at h
            | some u =>
              rw [hm] at h
              simp only [Except.ok.injEq] at h
              subst h
              exact ⟨"premium_720p", u, hm, by simp [generate_cloudfront_signed_url, h1]⟩
      · have b2 : (subscription_type == "standard") = false := beq_eq_false_iff_ne.mpr h2
        have b3 : (subscription_type == "premium") = false := beq_eq_false_iff_ne.mpr h3
        simp only [generate_video_response, b1, b2, b3, Bool.false_eq_true, if_false] at h
        simp at h

/-- Witness for C6 at a concrete input (free tier on `recDone`). -/
theorem authorize_url_expiry_witness :
    ∃ tag u, mapLookup recDone.videoUrls tag = some u ∧
      (VideoResponse.mk "v1" "" "" "" 0 "free" "uf?expires=1900" (some "480p") (some 10)
          ["480p"] "alice" [("maxDuration", FeatureVal.num 10)]).videoUrl
        = u ++ "?expires=" ++ toString (1000 + (if ("free" : String) = "free" then 900 else 7200)) :=
  authorize_url_expiry "v1" "free" "alice" recDone none 1000
    (VideoResponse.mk "v1" "" "" "" 0 "free" "uf?expires=1900" (some "480p") (some 10)
      ["480p"] "alice" [("maxDuration", FeatureVal.num 10)]) rfl

/-! ### C7 -/

/-- C7: tier resolution maps the stored subscription attribute exactly
as specified — `trial`/`guest` to `free`, `saving` to `standard`,
`free`/`standard`/`premium` pass through, anything else, a missing
attribute, or an identity-store error resolve to `free`. -/
theorem resolve_subscription_mapping :
    (∀ e, get_user_subscription (Except.error e) = "free") ∧
    (∀ attrs : List UserAttr,
      attrs.find? (fun a => a.name == "custom:subscription_type") = none →
      get_user_subscription (Except.ok attrs) = "free") ∧
    (∀ (attrs : List UserAttr) (val : String),
      (attrs.find? (fun a => a.name == "custom:subscription_type")).map (fun a => a.value)
          = some val →
      get_user_subscription (Except.ok attrs) =
        (if val = "trial" then "free"
         else if val = "saving" then "standard"
         else if val = "guest" then "free"
         else if val = "free" ∨ val = "standard" ∨ val = "premium" then val
         else "free")) := by
  refine ⟨fun e => rfl, fun attrs hnone => ?_, fun attrs val hval => ?_⟩
  · simp only [get_user_subscription, hnone, Option.map_none']
  · simp only [get_user_subscription, hval]
    by_cases h1 : val = "trial"
    · simp [h1]
    · by_cases h2 : val = "saving"
      · simp [h2]
      · by_cases h3 : val = "guest"
        · simp [h3]
        · by_cases h4 : val = "free"
          · simp [h4]
          · by_cases h5 : val = "standard"
            · simp [h5]
            · by_cases h6 : val = "premium"
              · simp [h6]
              · simp only [if_neg h1, if_neg h2, if_neg h3, if_neg h4, if_neg h5, if_neg h6]
                have : ¬(val = "free" ∨ val = "standard" ∨ val = "premium") := by
                  rintro (h | h | h) <;> [exact h4 h; exact h5 h; exact h6 h]
                rw [if_neg this]
                split <;> simp_all

/-- Witness for C7 at concrete inputs. -/
theorem resolve_subscription_mapping_witness :
    get_user_subscription (Except.error "boom") = "free" ∧
    get_user_subscription (Except.ok []) = "free" ∧
    get_user_subscription
        (Except.ok [{ name := "custom:subscription_type", value := "trial" }]) =
      (if ("trial" : String) = "trial" then "free"
       else if ("trial" : String) = "saving" then "standard"
       else if ("trial" : String) = "guest" then "free"
       else if ("trial" : String) = "free" ∨ ("trial" : String) = "standard"
            ∨ ("trial" : String) = "premium" then "trial"
       else "free") :=
  ⟨resolve_subscription_mapping.1 "boom",
   resolve_subscription_mapping.2.1 [] (by decide),
   resolve_subscription_mapping.2.2
     [{ name := "custom:subscription_type", value := "trial" }] "trial" (by decide)⟩

/-! ### C8 -/

/-- A record still processing (status not `completed`). -/
def recProcessing : VideoRecord :=
  { videoId := "vid-p", originalFilename := "clip2", status := "processing" }

/-- C8, counterexample: a record whose status is not `completed` is not
rejected with the NotFound error — the streamer answers 202 "Video is
still processing"; the 404 "Video not found" outcome is reserved for an
unknown `videoId`. -/
theorem processing_record_not_notfound :
    serve_video "vid-p" "free" "alice" (some recProcessing) none 1000
      = StreamOutcome.err 202 "Video is still processing" ∧
    serve_video "vid-p" "free" "alice" none none 1000
      = StreamOutcome.err 404 "Video not found" ∧
    StreamOutcome.err 202 "Video is still processing"
      ≠ StreamOutcome.err 404 "Video not found" := by
  decide

/-- C8, amended: an unknown `videoId` fails with 404 NotFound; a record
whose status is not `completed` fails with the 202 still-processing
error (not NotFound); a completed record lacking the rendition tag
required by the tier (and requested quality) fails with the 500
rendition-unavailable error.  No playback descriptor is produced in any
of these cases. -/
theorem authorize_error_paths
    (video_id subscription_type username : String) (m : VideoRecord)
    (qp : Option String) (now : Nat) :
    (serve_video video_id subscription_type username none qp now
        = StreamOutcome.err 404 "Video not found") ∧
    (m.status ≠ "completed" →
      serve_video video_id subscription_type username (some m) qp now
        = StreamOutcome.err 202 "Video is still processing") ∧
    (m.status = "completed" →
      ((subscription_type = "free" → mapLookup m.videoUrls "free" = none →
        serve_video video_id subscription_type username (some m) qp now
          = StreamOutcome.err 500
              ("Internal server error: Video not available for subscription type: "
                ++ subscription_type)) ∧
       (subscription_type = "standard" → mapLookup m.videoUrls "standard" = none →
        serve_video video_id subscription_type username (some m) qp now
          = StreamOutcome.err 500
              ("Internal server error: Video not available for subscription type: "
                ++ subscription_type)) ∧
       (subscription_type = "premium" → qp.getD "720p" = "1080p" →
        mapLookup m.videoUrls "premium_1080p" = none →
        serve_video video_id subscription_type username (some m) qp now
          = StreamOutcome.err 500
              ("Internal server error: Video not available for subscription type: "
                ++ subscription_type)) ∧
       (subscription_type = "premium" → qp.getD "720p" = "480p" →
        mapLookup m.videoUrls "standard" = none →
        serve_video video_id subscription_type username (some m) qp now
          = StreamOutcome.err 500
              ("Internal server error: Video not available for subscription type: "
                ++ subscription_type)) ∧
       (subscription_type = "premium" → qp.getD "720p" ≠ "1080p" → qp.getD "720p" ≠ "480p" →
        mapLookup m.videoUrls "premium_720p" = none →
        serve_video video_id subscription_type username (some m) qp now
          = StreamOutcome.err 500
              ("Internal server error: Video not available for subscription type: "
                ++ subscription_type)))) := by
  refine ⟨rfl, fun hst => ?_, fun hc => ⟨?_, ?_, ?_, ?_, ?_⟩⟩
  · have hbs : (m.status != "completed") = true := by
      simpa using hst
    simp only [serve_video, hbs, if_true]
  · intro hs hlook
    subst hs
    have hbs : (m.status != "completed") = false := by simp [hc]
    simp only [serve_video, hbs, Bool.false_eq_true, if_false,
      generate_video_response, String.reduceBEq, reduceIte, Bool.false_eq_true, hlook]
    rfl
  · intro hs hlook
    subst hs
    have hbs : (m.status != "completed") = false := by simp [hc]
    simp only [serve_video, hbs, Bool.false_eq_true, if_false,
      generate_video_response, String.reduceBEq, reduceIte, Bool.false_eq_true, if_false, hlook]
    rfl
  · intro hs hq hlook
    subst hs
    have hbs : (m.status != "completed") = false := by simp [hc]
    simp only [serve_video, hbs, Bool.false_eq_true, if_false,
      generate_video_response, String.reduceBEq, reduceIte, Bool.false_eq_true, if_false,
      hq, hlook]
    rfl
  · intro hs hq hlook
    subst hs
    have hbs : (m.status != "completed") = false := by simp [hc]
    simp only [serve_video, hbs, Bool.false_eq_true, if_false,
      generate_video_response, String.reduceBEq, reduceIte, Bool.false_eq_true, if_false,
      hq, hlook]
    rfl
  · intro hs hq1 hq2 hlook
    subst hs
    have hbs : (m.status != "completed") = false := by simp [hc]
    have bq1 : (qp.getD "720p" == "1080p") = false := beq_eq_false_iff_ne.mpr hq1
    have bq2 : (qp.getD "720p" == "480p") = false := beq_eq_false_iff_ne.mpr hq2
    simp only [serve_video, hbs, Bool.false_eq_true, if_false,
      generate_video_response, String.reduceBEq, reduceIte, Bool.false_eq_true, if_false,
      bq1, bq2, hlook]
    rfl

/-- A completed record with no rendition URLs at all (free tag absent). -/
def recNoFree : VideoRecord :=
  { videoId := "vid-n", originalFilename := "clip3", status := "completed" }

/-- Witness for C8's amended theorem at concrete inputs: the 404, 202
and 500 outcomes. -/
theorem authorize_error_paths_witness :
    serve_video "vid-p" "free" "alice" none none 1000
      = StreamOutcome.err 404 "Video not found" ∧
    serve_video "vid-p" "free" "alice" (some recProcessing) none 1000
      = StreamOutcome.err 202 "Video is still processing" ∧
    serve_video "vid-n" "free" "alice" (some recNoFree) none 1000
      = StreamOutcome.err 500
          ("Internal server error: Video not available for subscription type: " ++ "free") :=
  ⟨(authorize_error_paths "vid-p" "free" "alice" recProcessing none 1000).1,
   (authorize_error_paths "vid-p" "free" "alice" recProcessing none 1000).2.1 (by decide),
   ((authorize_error_paths "vid-n" "free" "alice" recNoFree none 1000).2.2 (by decide)).1
     rfl (by decide)⟩
